import Mathlib

/-!
Shallow embedding of `src/slackard.py` (a polling Slack bot).

Handlers are identified by opaque names (`Handler := Nat`); compiled regex
matchers (an external library concern, `re.compile(..., re.IGNORECASE)`)
are modelled as boolean predicates on strings.  Timestamps are modelled as
naturals (the code only compares them for equality and order).  The
messaging service is a parameter: `hist ch oldest` is the body of
`slack.channels.history(ch, oldest=oldest)`.
-/

namespace Slackard

/-- Identifier of a registered handler function (plugins register opaque
callables; only their identity and call order matter here). -/
abbrev Handler := Nat

/-- Model of a compiled regular-expression matcher: `matcher.search(text)`
as a boolean predicate on the text. -/
abbrev Matcher := String → Bool

/-- Model of a Slack message dict: `ts` plus the optional fields the
dispatch loop reads, and the two fields injected by the fetcher. -/
structure Message where
  ts : Nat
  text : Option String := none
  subtype : Option String := none
  username : Option String := none
  chan_id : Option String := none
  channel : Option String := none
  deriving Repr, DecidableEq

/-- One handler invocation performed by the dispatch loop:
`fire f m` is `f(m)` for a firehose, `sub f m` is `f(m)` for a subscriber,
`cmd f args m` is `f(args, m)` for a command handler. -/
inductive Event where
  | fire (f : Handler) (m : Message)
  | sub (f : Handler) (m : Message)
  | cmd (f : Handler) (args : String) (m : Message)
  deriving Repr, DecidableEq

/-- The message a dispatch event delivers. -/
def eventMsg : Event → Message
  | .fire _ m => m
  | .sub _ m => m
  | .cmd _ _ m => m

/-- State of a `Slackard` bot object: configuration fields plus the three
registration registries (`subscribers`, `commands`, `firehoses`) and the
channel maps built by `_init_connection` (`channels` : name → ID,
`chan_ids` : ID → name, both as assoc lists in insertion order). -/
structure Bot where
  botname : String
  botnick : String
  channels : List (String × String)
  chan_ids : List (String × String)
  firehoses : List Handler := []
  subscribers : List (Handler × Matcher) := []
  commands : List (Handler × String) := []

/-- Python `\s` on ASCII: space, tab, newline, carriage return, vertical
tab, form feed. -/
def isPySpace (c : Char) : Bool :=
  c == ' ' || c == '\t' || c == '\n' || c == '\r' || c == '\x0b' || c == '\x0c'

/-- Case-insensitive literal prefix stripping: `ciStrip pat cs` returns
the remainder of `cs` after matching `pat` char-by-char up to lowercasing,
or `none` if `pat` is not a case-insensitive prefix of `cs`. -/
def ciStrip : List Char → List Char → Option (List Char)
  | [], cs => some cs
  | _ :: _, [] => none
  | p :: ps, c :: cs => if p.toLower = c.toLower then ciStrip ps cs else none

/-- Model of `re.match('^<botnick>:\s*(\S+)\s*(.*)', text, re.IGNORECASE)`
(src line 207, used at line 250), for a nickname with no regex
metacharacters (matched as a case-insensitive literal).  `\S+` requires a
nonempty run of non-whitespace; `.` does not match a newline, so the args
group stops at the first newline. -/
def parseCommandAux (nick text : List Char) : Option (List Char × List Char) :=
  match ciStrip (nick ++ [':']) text with
  | none => none
  | some rest =>
    let afterColon := rest.dropWhile isPySpace
    match afterColon.takeWhile (fun c => !(isPySpace c)) with
    | [] => none
    | cmd =>
      let afterCmd := (afterColon.dropWhile (fun c => !(isPySpace c))).dropWhile isPySpace
      some (cmd, afterCmd.takeWhile (fun c => c ≠ '\n'))

/-- String-level wrapper for `parseCommandAux`, yielding the two captured
groups `(command, args)` of `cmd_matcher.match(text)`. -/
def parseCommand (nick text : String) : Option (String × String) :=
  match parseCommandAux nick.data text.data with
  | none => none
  | some (c, a) => some (String.mk c, String.mk a)

/-- Command-stage events of the dispatch loop (src lines 250-255): parse
the text with the command matcher; on a match, call every handler whose
registered command string equals the captured command. -/
def cmdEvents (bot : Bot) (txt : String) (m : Message) : List Event :=
  match parseCommand bot.botnick txt with
  | none => []
  | some (c, args) =>
    (bot.commands.filter fun p => p.2 == c).map fun p => Event.cmd p.1 args m

/-- Self-message test of src lines 237-242: the message is skipped iff its
`subtype` is present and equals `bot_message` and its `username` is
present and equals the configured bot name (a missing key raises
`KeyError`, which is caught and ignored, so the message is dispatched). -/
def isSelfMessage (bot : Bot) (m : Message) : Bool :=
  m.subtype == some "bot_message" && m.username == some bot.botname

/-- Dispatch of one message (src lines 235-255): nothing happens without a
`text` field or for a self message; otherwise all firehoses fire in
registration order, then every subscriber whose matcher finds a match in
the text, then the command stage. -/
def dispatchMessage (bot : Bot) (m : Message) : List Event :=
  match m.text with
  | none => []
  | some txt =>
    if isSelfMessage bot m then []
    else
      (bot.firehoses.map fun f => Event.fire f m)
        ++ ((bot.subscribers.filter fun p => p.2 txt).map fun p => Event.sub p.1 m)
        ++ cmdEvents bot txt m

/-- One pass of the `run` message loop over a fetched list (src lines
233-255): for each message in order, first set the watermark `ts` to the
message's `ts` (line 234), then dispatch it.  Returns the final watermark
and the concatenated invocation trace. -/
def runLoopStep (bot : Bot) (ts0 : Nat) (msgs : List Message) : Nat × List Event :=
  msgs.foldl (fun acc m => (m.ts, acc.2 ++ dispatchMessage bot m)) (ts0, [])

/-- The largest `ts` value among a list of messages (0 if empty). -/
def maxTs (msgs : List Message) : Nat :=
  msgs.foldl (fun a m => max a m.ts) 0

/-- Model of `_fetch_messages_since` (src lines 118-131): for every
configured channel ID (dict-value order), take the service's history body,
tag each message with `chan_id` (the ID) and `channel` (the name, looked
up in `chan_ids`), reverse the per-channel batch, concatenate, and finally
drop every message whose `ts` equals `oldest`. -/
def fetchMessagesSince (bot : Bot) (hist : String → Nat → List Message)
    (oldest : Nat) : List Message :=
  ((bot.channels.map Prod.snd).flatMap fun ch =>
    (((hist ch oldest).map fun m =>
      { m with chan_id := some ch, channel := bot.chan_ids.lookup ch }).reverse)
  ).filter fun m => m.ts ≠ oldest

/-- Argument shape of `_resolve_channels` (src lines 133-153): Python's
`None`, a single string, or a list of strings. -/
inductive Selector where
  | all
  | one (s : String)
  | many (l : List String)

/-- The per-identifier loop of `_resolve_channels` (src lines 145-152):
an identifier that is a known channel ID is kept as is; otherwise a known
channel name is replaced by its ID; otherwise an unknown-channel
`AssertionError` is raised. -/
def resolveList (bot : Bot) : List String → Except String (List String)
  | [] => .ok []
  | c :: cs =>
    if (bot.chan_ids.lookup c).isSome then
      (resolveList bot cs).map fun r => c :: r
    else
      match bot.channels.lookup c with
      | some i => (resolveList bot cs).map fun r => i :: r
      | none => .error ("\"" ++ c ++ "\" is an unknown channel")

/-- Normalization of the `channels` argument at the top of
`_resolve_channels` (src lines 141-144): `None` means all configured
channel names, a string is wrapped in a singleton list. -/
def selectorNames (bot : Bot) : Selector → List String
  | .all => bot.channels.map Prod.fst
  | .one s => [s]
  | .many l => l

/-- Model of `_resolve_channels` (src lines 133-153): resolve each
identifier and de-duplicate the accumulated result (`tuple(set(result))`,
modelled with `List.dedup` since the Python set's order is unspecified). -/
def resolveChannels (bot : Bot) (sel : Selector) : Except String (List String) :=
  (resolveList bot (selectorNames bot sel)).map List.dedup

/-- Outcome of the `slack.channels.list()` call in `_init_connection`
(src line 104): a successful body of `(name, id)` pairs, a `slacker.Error`
carrying a message, or any other exception. -/
inductive ListChannelsResult where
  | ok (chans : List (String × String))
  | slackerErr (msg : String)
  | otherErr (msg : String)
  deriving Repr, DecidableEq

/-- Outcome of `_init_connection` (src lines 100-116). `propagated` is a
`slacker.Error` re-raised bare by the `raise` at src line 108 (wrapped in
neither `SlackardFatalError` nor `SlackardNonFatalError`); `keyError` is
the unguarded `c_map[x]` lookup at src line 115 raising `KeyError` for a
configured channel name absent from the service's listing. -/
inductive InitOutcome where
  | success (channels : List (String × String)) (chan_ids : List (String × String))
  | fatal (msg : String)
  | nonFatal (msg : String)
  | propagated (msg : String)
  | keyError (name : String)
  deriving Repr, DecidableEq

/-- The channel-map construction loop of `_init_connection` (src lines
112-116): `channels[x] = c_map[x]` and `chan_ids[id] = x` for each
configured name `x`, raising `KeyError` on a missing name. -/
def buildChannelMaps (cmap : List (String × String)) :
    List String → Except String (List (String × String) × List (String × String))
  | [] => .ok ([], [])
  | x :: xs =>
    match cmap.lookup x with
    | none => .error x
    | some i => (buildChannelMaps cmap xs).map fun p => ((x, i) :: p.1, (i, x) :: p.2)

/-- Model of `_init_connection` (src lines 100-116): `invalid_auth` from
the service becomes `SlackardFatalError`; any other `slacker.Error` is
re-raised unwrapped; any other exception becomes `SlackardNonFatalError`;
on success the name→ID and ID→name maps are built. -/
def initConnection (configuredNames : List String) (r : ListChannelsResult) : InitOutcome :=
  match r with
  | .slackerErr m => if m = "invalid_auth" then .fatal "Invalid API key" else .propagated m
  | .otherErr m => .nonFatal m
  | .ok chans =>
    match buildChannelMaps chans configuredNames with
    | .error x => .keyError x
    | .ok (cm, im) => .success cm im

/-- What `main`'s outer loop (src lines 340-354) does with an exception
escaping `bot.run()`: `SlackardFatalError` exits, `SlackardNonFatalError`
delays and reconnects, anything else is printed as an unhandled exception
and exits. -/
inductive TopAction where
  | proceed
  | exitFatal
  | retryReconnect
  | exitUnhandled
  deriving Repr, DecidableEq

/-- Classification of an `_init_connection` outcome by `main`'s
`try/except` ladder (src lines 340-354). -/
def mainClassify : InitOutcome → TopAction
  | .success _ _ => .proceed
  | .fatal _ => .exitFatal
  | .nonFatal _ => .retryReconnect
  | .propagated _ => .exitUnhandled
  | .keyError _ => .exitUnhandled

/-- Every attribute name defined on the `Slackard` class or assigned on
its instances in `src/slackard.py`: the three class-level registries
(lines 37-39), the instance fields set in `__init__` (lines 41-63) and
`_init_connection` (line 102), and the methods (lines 41-298). -/
def slackardAttrs : List String :=
  ["subscribers", "commands", "firehoses",
   "config", "apikey", "botname", "botnick", "channels", "chan_ids",
   "plugins", "boticon", "botemoji", "slack",
   "__init__", "__str__", "_import_plugins", "_get_plugin_path",
   "_set_import_path", "_init_connection", "_fetch_messages_since",
   "_resolve_channels", "speak", "upload", "set_topic", "channel_info",
   "run", "subscribe", "command", "firehose"]

/-- A `slack.files.upload` request as `upload` would issue it. -/
structure UploadCall where
  file : String
  channels : List String
  filename : Option String
  title : String
  deriving Repr, DecidableEq

/-- Model of `upload` (src lines 172-185).  Its first statement evaluates
`self.resolve_channels(channel)`: Python resolves the attribute name
`resolve_channels` on the object before any call can happen, and the
lookup raises `AttributeError` when the name is absent.  The remainder of
the body (title formatting — note the `None` branch formats the literal
`None` because `'(Upload by {})'.format(title, self.botname)` fills the
single placeholder with `title` — and the `files.upload` request) is
modelled faithfully but is reachable only if the attribute existed.
Returns the raised-exception-or-unit outcome together with the list of
service requests issued. -/
def upload (bot : Bot) (file : String) (filename : Option String)
    (title : Option String) (channel : Selector) :
    Except String Unit × List UploadCall :=
  if "resolve_channels" ∈ slackardAttrs then
    match resolveChannels bot channel with
    | .error e => (.error e, [])
    | .ok chans =>
      let t := match title with
        | none => "(Upload by None)"
        | some t0 => t0 ++ " (Upload by " ++ bot.botname ++ ")"
      (.ok (), [⟨file, chans, filename, t⟩])
  else
    (.error "AttributeError: 'Slackard' object has no attribute 'resolve_channels'", [])

/-- First argument of the `subscribe`/`command` decorator factories:
either a string or (misuse) a callable. -/
inductive RegArg where
  | str (s : String)
  | callable

/-- Model of decorating a handler with `@bot.subscribe(pattern)` (src
lines 257-274): a callable pattern raises `TypeError` before anything is
registered; otherwise `re.compile(pattern, re.IGNORECASE)` (the external
`compile` parameter) either yields a matcher that is appended with the
wrapped handler, or fails, in which case the failure is printed (the
returned flag) and nothing is appended — no exception escapes. -/
def subscribeApply (compile : String → Option Matcher) (arg : RegArg)
    (h : Handler) (subs : List (Handler × Matcher)) :
    Except String Unit × List (Handler × Matcher) × Bool :=
  match arg with
  | .callable => (.error "Must supply pattern string", subs, false)
  | .str p =>
    match compile p with
    | some mt => (.ok (), subs ++ [(h, mt)], false)
    | none => (.ok (), subs, true)

/-- Model of decorating a handler with `@bot.command(name)` (src lines
276-289): a callable command raises `TypeError` before anything is
registered; otherwise the wrapped handler is appended with the command
string. -/
def commandApply (arg : RegArg) (h : Handler) (cmds : List (Handler × String)) :
    Except String Unit × List (Handler × String) :=
  match arg with
  | .callable => (.error "Must supply command string", cmds)
  | .str c => (.ok (), cmds ++ [(h, c)])

/-- Model of decorating a handler with `@bot.firehose` (src lines
291-298): unconditionally append the wrapped handler. -/
def firehoseReg (bot : Bot) (h : Handler) : Bot :=
  { bot with firehoses := bot.firehoses ++ [h] }

/-! ### Helper lemmas about the dispatch trace -/

theorem dispatch_eq (bot : Bot) (m : Message) (txt : String)
    (htext : m.text = some txt) (hself : isSelfMessage bot m = false) :
    dispatchMessage bot m =
      (bot.firehoses.map fun f => Event.fire f m)
        ++ ((bot.subscribers.filter fun p => p.2 txt).map fun p => Event.sub p.1 m)
        ++ cmdEvents bot txt m := by
  unfold dispatchMessage
  rw [htext, hself]
  simp

theorem count_fire_map (l : List Handler) (h : Handler) (m : Message) :
    ((l.map fun f => Event.fire f m).count (Event.fire h m)) = l.count h := by
  induction l with
  | nil => rfl
  | cons a t ih => simp [List.count_cons, ih]

theorem count_sub_map (l : List (Handler × Matcher)) (f : Handler) (m : Message) :
    ((l.map fun p => Event.sub p.1 m).count (Event.sub f m))
      = (l.filter fun p => p.1 == f).length := by
  induction l with
  | nil => rfl
  | cons a t ih =>
    by_cases hf : a.1 = f
    · simp [List.count_cons, List.filter_cons, hf, ih]
    · simp [List.count_cons, List.filter_cons, hf, ih, Ne.symm hf]

theorem fire_count_subEvents (l : List (Handler × Matcher)) (h : Handler)
    (m m' : Message) :
    ((l.map fun p => Event.sub p.1 m').count (Event.fire h m)) = 0 := by
  rw [List.count_eq_zero]
  simp

theorem fire_count_cmdEvents (bot : Bot) (txt : String) (h : Handler)
    (m m' : Message) :
    ((cmdEvents bot txt m').count (Event.fire h m)) = 0 := by
  rw [List.count_eq_zero]
  unfold cmdEvents
  cases parseCommand bot.botnick txt <;> simp

theorem sub_count_fireEvents (l : List Handler) (f : Handler) (m m' : Message) :
    ((l.map fun g => Event.fire g m').count (Event.sub f m)) = 0 := by
  rw [List.count_eq_zero]
  simp

theorem sub_count_cmdEvents (bot : Bot) (txt : String) (f : Handler)
    (m m' : Message) :
    ((cmdEvents bot txt m').count (Event.sub f m)) = 0 := by
  rw [List.count_eq_zero]
  unfold cmdEvents
  cases parseCommand bot.botnick txt <;> simp

theorem runLoopStep_trace (bot : Bot) (ts0 : Nat) (msgs : List Message) :
    (runLoopStep bot ts0 msgs).2 = msgs.flatMap (dispatchMessage bot) := by
  suffices h : ∀ (msgs : List Message) (t : Nat) (acc : List Event),
      (msgs.foldl (fun acc m => (m.ts, acc.2 ++ dispatchMessage bot m)) (t, acc)).2
        = acc ++ msgs.flatMap (dispatchMessage bot) by
    simpa [runLoopStep] using h msgs ts0 []
  intro msgs
  induction msgs with
  | nil => simp
  | cons a t ih => intro ts acc; simp [ih, List.flatMap_cons]

theorem eventMsg_cmdEvents (bot : Bot) (txt : String) (m : Message) (e : Event)
    (he : e ∈ cmdEvents bot txt m) : eventMsg e = m := by
  unfold cmdEvents at he
  cases hp : parseCommand bot.botnick txt with
  | none => rw [hp] at he; simp at he
  | some ca =>
    rw [hp] at he
    simp only [List.mem_map] at he
    obtain ⟨p, _, rfl⟩ := he
    rfl

theorem eventMsg_dispatch (bot : Bot) (m : Message) (e : Event)
    (he : e ∈ dispatchMessage bot m) : eventMsg e = m := by
  cases htext : m.text with
  | none => unfold dispatchMessage at he; rw [htext] at he; simp at he
  | some txt =>
    by_cases hself : isSelfMessage bot m
    · unfold dispatchMessage at he; rw [htext, hself] at he; simp at he
    · have hs : isSelfMessage bot m = false := by simpa using hself
      rw [dispatch_eq bot m txt htext hs] at he
      rcases List.mem_append.mp he with h1 | hc
      · rcases List.mem_append.mp h1 with hf | hsub
        · obtain ⟨f, _, rfl⟩ := List.mem_map.mp hf
          rfl
        · obtain ⟨p, _, rfl⟩ := List.mem_map.mp hsub
          rfl
      · exact eventMsg_cmdEvents bot txt m e hc

/-! ### Claim theorems -/

/-- C2: for every non-self message with a text field, the dispatch trace
is exactly the firehose invocations in registration order, then one
invocation per matching subscriber registration in registration order,
then the matching command invocations — no kind short-circuits a later
kind, and each subscriber registration whose matcher accepts the text is
invoked exactly once with the message as argument. -/
theorem C2_dispatch_order (bot : Bot) (m : Message) (txt : String)
    (htext : m.text = some txt) (hself : isSelfMessage bot m = false) :
    dispatchMessage bot m =
      (bot.firehoses.map fun f => Event.fire f m)
        ++ ((bot.subscribers.filter fun p => p.2 txt).map fun p => Event.sub p.1 m)
        ++ cmdEvents bot txt m
    ∧ ∀ f : Handler,
        (dispatchMessage bot m).count (Event.sub f m)
          = (bot.subscribers.filter fun p => p.1 == f && p.2 txt).length := by
  have hd := dispatch_eq bot m txt htext hself
  refine ⟨hd, fun f => ?_⟩
  rw [hd, List.count_append, List.count_append,
    sub_count_fireEvents, sub_count_cmdEvents, count_sub_map, List.filter_filter]
  simp

/-- C2 witness: a concrete bot with one firehose, two subscribers (one
matching) and one command handler, and a concrete non-self message. -/
theorem C2_dispatch_order_witness :
    (dispatchMessage
        { botname := "Slackard", botnick := "slack", channels := [], chan_ids := []
          firehoses := [1]
          subscribers := [(2, fun t => t == "hello there"),
                          (3, fun _ => false)]
          commands := [(4, "ping")] }
        { ts := 9, text := some "hello there" } =
      [Event.fire 1 { ts := 9, text := some "hello there" },
       Event.sub 2 { ts := 9, text := some "hello there" }])
    ∧ (dispatchMessage
        { botname := "Slackard", botnick := "slack", channels := [], chan_ids := []
          firehoses := [1]
          subscribers := [(2, fun t => t == "hello there"),
                          (3, fun _ => false)]
          commands := [(4, "ping")] }
        { ts := 9, text := some "hello there" }).count
          (Event.sub 2 { ts := 9, text := some "hello there" }) = 1 := by
  have h := C2_dispatch_order
    { botname := "Slackard", botnick := "slack", channels := [], chan_ids := []
      firehoses := [1]
      subscribers := [(2, fun t => t == "hello there"),
                      (3, fun _ => false)]
      commands := [(4, "ping")] }
    { ts := 9, text := some "hello there" } "hello there" rfl rfl
  exact ⟨by rw [h.1]; rfl, by rw [h.2 2]; rfl⟩

/-- C5: a message whose `subtype` is `bot_message` and whose `username`
equals the configured bot name produces no dispatch events, and no event
of any run-loop pass delivers it to any handler. -/
theorem C5_self_never_delivered (bot : Bot) (m : Message)
    (hsub : m.subtype = some "bot_message") (huser : m.username = some bot.botname) :
    dispatchMessage bot m = []
    ∧ ∀ (ts0 : Nat) (msgs : List Message) (e : Event),
        e ∈ (runLoopStep bot ts0 msgs).2 → eventMsg e ≠ m := by
  have hself : isSelfMessage bot m = true := by
    simp [isSelfMessage, hsub, huser]
  have hdisp : dispatchMessage bot m = [] := by
    unfold dispatchMessage
    cases htext : m.text with
    | none => simp
    | some txt => rw [hself]; simp
  refine ⟨hdisp, fun ts0 msgs e he hme => ?_⟩
  rw [runLoopStep_trace] at he
  obtain ⟨m', hm', he'⟩ := List.mem_flatMap.mp he
  have hmsg : eventMsg e = m' := eventMsg_dispatch bot m' e he'
  rw [hme] at hmsg
  rw [← hmsg, hdisp] at he'
  exact absurd he' (List.not_mem_nil e)

/-- C5 witness: a concrete self-authored message is dispatched to nothing
and appears in no event of a concrete run-loop pass. -/
theorem C5_self_never_delivered_witness :
    dispatchMessage { botname := "Slackard", botnick := "slack", channels := [], chan_ids := [] }
        { ts := 3, text := some "hello", subtype := some "bot_message",
          username := some "Slackard" } = []
    ∧ ∀ e ∈ (runLoopStep
          { botname := "Slackard", botnick := "slack", channels := [], chan_ids := [] } 0
          [{ ts := 3, text := some "hello", subtype := some "bot_message",
             username := some "Slackard" }]).2,
        eventMsg e ≠ { ts := 3, text := some "hello", subtype := some "bot_message",
                       username := some "Slackard" } := by
  have h := C5_self_never_delivered
    { botname := "Slackard", botnick := "slack", channels := [], chan_ids := [] }
    { ts := 3, text := some "hello", subtype := some "bot_message",
      username := some "Slackard" } rfl rfl
  exact ⟨h.1, fun e he => h.2 0 _ e he⟩

/-- C8: `upload` resolves the attribute name `resolve_channels`, which is
not among the attributes defined on the bot (the defined method is
`_resolve_channels`), so every call raises `AttributeError` and issues
no service request, for all argument values. -/
theorem C8_upload_attribute_error (bot : Bot) (file : String) (filename : Option String)
    (title : Option String) (channel : Selector) :
    ("resolve_channels" ∉ slackardAttrs ∧ "_resolve_channels" ∈ slackardAttrs)
    ∧ upload bot file filename title channel =
        (.error "AttributeError: 'Slackard' object has no attribute 'resolve_channels'",
         []) := by
  have hmem : "resolve_channels" ∉ slackardAttrs := by decide
  exact ⟨⟨hmem, by decide⟩, by simp [upload, hmem]⟩

/-- C9: decorating with a callable pattern raises `TypeError` and
registers nothing; a pattern that fails to compile is logged and not
registered, with no exception raised; the command decorator applies the
same callable guard. -/
theorem C9_registration_guards (compile : String → Option Matcher) (h : Handler)
    (subs : List (Handler × Matcher)) (cmds : List (Handler × String)) :
    subscribeApply compile .callable h subs = (.error "Must supply pattern string", subs, false)
    ∧ (∀ p : String, compile p = none →
         subscribeApply compile (.str p) h subs = (.ok (), subs, true))
    ∧ commandApply .callable h cmds = (.error "Must supply command string", cmds) := by
  refine ⟨rfl, fun p hp => ?_, rfl⟩
  simp only [subscribeApply]
  rw [hp]

/-- C9 witness: a compile function that always fails, applied to concrete
arguments. -/
theorem C9_registration_guards_witness :
    subscribeApply (fun _ => none) .callable 0 [] =
        (.error "Must supply pattern string", [], false)
    ∧ subscribeApply (fun _ => none) (.str "(") 0 [] = (.ok (), [], true)
    ∧ commandApply .callable 0 [] = (.error "Must supply command string", []) := by
  have h := C9_registration_guards (fun _ => none) 0 [] []
  exact ⟨h.1, h.2.1 "(" rfl, h.2.2⟩

/-- C10: firehose registration is append-only with no de-duplication:
after registering the same handler twice, the registry holds both copies
in order, the dispatch trace fires the handler once per registration in
registration order, and the handler's invocation count per delivered
message grows by exactly two. -/
theorem C10_firehose_append_only (bot : Bot) (h : Handler) (m : Message) (txt : String)
    (htext : m.text = some txt) (hself : isSelfMessage bot m = false) :
    (firehoseReg (firehoseReg bot h) h).firehoses = bot.firehoses ++ [h, h]
    ∧ dispatchMessage (firehoseReg (firehoseReg bot h) h) m =
        ((bot.firehoses ++ [h, h]).map fun f => Event.fire f m)
          ++ ((bot.subscribers.filter fun p => p.2 txt).map fun p => Event.sub p.1 m)
          ++ cmdEvents bot txt m
    ∧ (dispatchMessage (firehoseReg (firehoseReg bot h) h) m).count (Event.fire h m)
        = (dispatchMessage bot m).count (Event.fire h m) + 2 := by
  have hself2 : isSelfMessage (firehoseReg (firehoseReg bot h) h) m = false := hself
  have e1 : (firehoseReg (firehoseReg bot h) h).firehoses = bot.firehoses ++ [h, h] := by
    simp [firehoseReg]
  have e2 : (firehoseReg (firehoseReg bot h) h).subscribers = bot.subscribers := rfl
  have e3 : cmdEvents (firehoseReg (firehoseReg bot h) h) txt m = cmdEvents bot txt m := rfl
  have hd2 := dispatch_eq (firehoseReg (firehoseReg bot h) h) m txt htext hself2
  have hd1 := dispatch_eq bot m txt htext hself
  refine ⟨e1, ?_, ?_⟩
  · rw [hd2, e1, e2, e3]
  · rw [hd2, hd1, e1, e2, e3,
      List.count_append, List.count_append, List.count_append, List.count_append,
      count_fire_map, count_fire_map, fire_count_subEvents, fire_count_cmdEvents,
      List.count_append]
    simp [List.count_cons]

/-- C10 witness: a bot with one prior firehose registration; after two
more registrations of handler 7, a delivered message fires 7 twice more. -/
theorem C10_firehose_append_only_witness :
    (firehoseReg (firehoseReg
        { botname := "Slackard", botnick := "slack", channels := [], chan_ids := [],
          firehoses := [5] } 7) 7).firehoses = [5, 7, 7]
    ∧ (dispatchMessage (firehoseReg (firehoseReg
          { botname := "Slackard", botnick := "slack", channels := [], chan_ids := [],
            firehoses := [5] } 7) 7)
          { ts := 1, text := some "x" }).count
        (Event.fire 7 { ts := 1, text := some "x" })
      = (dispatchMessage
          { botname := "Slackard", botnick := "slack", channels := [], chan_ids := [],
            firehoses := [5] }
          { ts := 1, text := some "x" }).count
        (Event.fire 7 { ts := 1, text := some "x" }) + 2 := by
  have h := C10_firehose_append_only
    { botname := "Slackard", botnick := "slack", channels := [], chan_ids := [],
      firehoses := [5] } 7 { ts := 1, text := some "x" } "x" rfl rfl
  exact ⟨h.1, h.2.2⟩

/-- C7 counterexample: a `slacker.Error` whose message is not
`invalid_auth` (here `account_inactive`) is a connection failure that
does not yield the recoverable (`SlackardNonFatalError`) outcome: it is
re-raised bare and `main` treats it as an unhandled exception (process
exit), contradicting the claim that every non-credential failure is
recoverable. -/
theorem C7_counterexample :
    initConnection ["general"] (.slackerErr "account_inactive")
        = .propagated "account_inactive"
    ∧ mainClassify (initConnection ["general"] (.slackerErr "account_inactive"))
        = .exitUnhandled
    ∧ mainClassify (initConnection ["general"] (.slackerErr "account_inactive"))
        ≠ .retryReconnect := by
  exact ⟨by decide, by decide, by decide⟩

/-- C7 amended: connection initialization raises `SlackardFatalError` iff
the service reports `invalid_auth`; a non-`slacker.Error` exception yields
the recoverable `SlackardNonFatalError`; but a `slacker.Error` with any
other message is re-raised unwrapped and the top level exits on it as an
unhandled exception. -/
theorem C7_init_error_classification (names : List String) (r : ListChannelsResult) :
    ((∃ msg, initConnection names r = .fatal msg) ↔ r = .slackerErr "invalid_auth")
    ∧ (∀ m, r = .otherErr m →
        initConnection names r = .nonFatal m
        ∧ mainClassify (initConnection names r) = .retryReconnect)
    ∧ (∀ m, r = .slackerErr m → m ≠ "invalid_auth" →
        initConnection names r = .propagated m
        ∧ mainClassify (initConnection names r) = .exitUnhandled) := by
  refine ⟨⟨?_, ?_⟩, ?_, ?_⟩
  · rintro ⟨msg, hm⟩
    cases r with
    | ok chans =>
      simp only [initConnection] at hm
      cases hb : buildChannelMaps chans names with
      | error x => rw [hb] at hm; simp at hm
      | ok p => rw [hb] at hm; cases p; simp at hm
    | slackerErr s =>
      by_cases hs : s = "invalid_auth"
      · rw [hs]
      · simp [initConnection, hs] at hm
    | otherErr s => simp [initConnection] at hm
  · rintro rfl
    exact ⟨"Invalid API key", by simp [initConnection]⟩
  · rintro m rfl
    exact ⟨rfl, rfl⟩
  · rintro m rfl hm
    exact ⟨by simp [initConnection, hm], by simp [initConnection, mainClassify, hm]⟩

/-- C7 witness: a timeout-style exception that is not a `slacker.Error`
is classified as recoverable and the top level reconnects. -/
theorem C7_init_error_classification_witness :
    initConnection ["general"] (.otherErr "connection reset")
        = .nonFatal "connection reset"
    ∧ mainClassify (initConnection ["general"] (.otherErr "connection reset"))
        = .retryReconnect :=
  (C7_init_error_classification ["general"] (.otherErr "connection reset")).2.1
    "connection reset" rfl

/-- Two-channel configuration used to evaluate the run loop's watermark
update: channel `C1` (general) holds a newer message (ts 10) than channel
`C2` (random, ts 7). -/
def exBot : Bot :=
  { botname := "Slackard", botnick := "slack"
    channels := [("general", "C1"), ("random", "C2")]
    chan_ids := [("C1", "general"), ("C2", "random")] }

/-- Full message history of each channel in the two-channel scenario. -/
def exFull : String → List Message := fun ch =>
  if ch = "C1" then [{ ts := 10, text := some "hi" }]
  else if ch = "C2" then [{ ts := 7, text := some "yo" }]
  else []

/-- Service history call in the two-channel scenario: Slack's `oldest`
bound is inclusive. -/
def exHist : String → Nat → List Message := fun ch t =>
  (exFull ch).filter fun m => t ≤ m.ts

/-- C1: evaluation of the code at the failing input.  With two configured
channels, the fetch since watermark 5 is non-empty with maximum timestamp
10, yet the run loop leaves the watermark at 7 — the `ts` of the *last*
fetched message (the last channel's newest), not the maximum — and the
next fetch (since 7) re-delivers the ts-10 message, contradicting the
claim that the watermark advances to the largest fetched timestamp
regardless of the number of channels. -/
theorem C1_watermark_not_max :
    fetchMessagesSince exBot exHist 5 ≠ []
    ∧ maxTs (fetchMessagesSince exBot exHist 5) = 10
    ∧ (runLoopStep exBot 5 (fetchMessagesSince exBot exHist 5)).1 = 7
    ∧ (runLoopStep exBot 5 (fetchMessagesSince exBot exHist 5)).1
        ≠ maxTs (fetchMessagesSince exBot exHist 5)
    ∧ { ts := 10, text := some "hi", chan_id := some "C1",
        channel := some "general" } ∈ fetchMessagesSince exBot exHist 7 := by
  exact ⟨by decide, by decide, by decide, by decide, by decide⟩

theorem lookup_eq_some_of_mem {l : List (String × String)}
    (hnd : (l.map Prod.fst).Nodup) {p : String × String} (hp : p ∈ l) :
    l.lookup p.1 = some p.2 := by
  induction l with
  | nil => cases hp
  | cons q t ih =>
    obtain ⟨qk, qv⟩ := q
    rcases List.mem_cons.mp hp with rfl | hmem
    · simp [List.lookup]
    · have hne : (p.1 == qk) = false := by
        rw [beq_eq_false_iff_ne]
        intro he
        apply (List.nodup_cons.mp hnd).1
        rw [← he]
        exact List.mem_map.mpr ⟨p, hmem, rfl⟩
      rw [List.lookup_cons, hne]
      exact ih (List.nodup_cons.mp hnd).2 hmem

theorem resolveList_all_names (bot : Bot) (l : List (String × String))
    (hsub : ∀ p ∈ l, bot.channels.lookup p.1 = some p.2)
    (hdisj : ∀ p ∈ l, bot.chan_ids.lookup p.1 = none) :
    resolveList bot (l.map Prod.fst) = .ok (l.map Prod.snd) := by
  induction l with
  | nil => rfl
  | cons p t ih =>
    simp only [List.map_cons]
    unfold resolveList
    rw [hdisj p (List.mem_cons_self p t), hsub p (List.mem_cons_self p t)]
    rw [ih (fun x hx => hsub x (List.mem_cons_of_mem p hx))
        (fun x hx => hdisj x (List.mem_cons_of_mem p hx))]
    rfl

theorem resolveList_unknown_error (bot : Bot) (l : List String)
    (hc : ∃ c ∈ l, bot.chan_ids.lookup c = none ∧ bot.channels.lookup c = none) :
    ∃ e, resolveList bot l = .error e := by
  induction l with
  | nil => obtain ⟨c, hc, _⟩ := hc; cases hc
  | cons a t ih =>
    by_cases ha1 : (bot.chan_ids.lookup a).isSome
    · obtain ⟨c, hcmem, hcn1, hcn2⟩ := hc
      have hct : c ∈ t := by
        rcases List.mem_cons.mp hcmem with rfl | h
        · rw [hcn1] at ha1; simp at ha1
        · exact h
      obtain ⟨e, he⟩ := ih ⟨c, hct, hcn1, hcn2⟩
      refine ⟨e, ?_⟩
      unfold resolveList
      rw [if_pos ha1, he]
      rfl
    · cases ha2 : bot.channels.lookup a with
      | some i =>
        obtain ⟨c, hcmem, hcn1, hcn2⟩ := hc
        have hct : c ∈ t := by
          rcases List.mem_cons.mp hcmem with rfl | h
          · rw [hcn2] at ha2; cases ha2
          · exact h
        obtain ⟨e, he⟩ := ih ⟨c, hct, hcn1, hcn2⟩
        refine ⟨e, ?_⟩
        unfold resolveList
        rw [if_neg ha1, ha2, he]
        rfl
      | none =>
        refine ⟨"\"" ++ a ++ "\" is an unknown channel", ?_⟩
        unfold resolveList
        rw [if_neg ha1, ha2]

/-- C6: after connection initialization (channel names are distinct and
disjoint from channel IDs), resolving `None` succeeds with exactly the
set of configured channel IDs; resolving a single known channel name
yields exactly that channel's ID; resolving a collection containing an
identifier that is neither a known name nor a known ID fails with an
unknown-channel error; and every successful result is de-duplicated. -/
theorem C6_resolve_channels (bot : Bot)
    (hnd : (bot.channels.map Prod.fst).Nodup)
    (hdisj : ∀ p ∈ bot.channels, bot.chan_ids.lookup p.1 = none) :
    (∃ r, resolveChannels bot .all = .ok r
        ∧ r.toFinset = (bot.channels.map Prod.snd).toFinset ∧ r.Nodup)
    ∧ (∀ name i, bot.chan_ids.lookup name = none →
        bot.channels.lookup name = some i →
        resolveChannels bot (.one name) = .ok [i])
    ∧ (∀ l, (∃ c ∈ l, bot.chan_ids.lookup c = none ∧ bot.channels.lookup c = none) →
        ∃ e, resolveChannels bot (.many l) = .error e)
    ∧ (∀ sel r, resolveChannels bot sel = .ok r → r.Nodup) := by
  refine ⟨?_, ?_, ?_, ?_⟩
  · refine ⟨(bot.channels.map Prod.snd).dedup, ?_, ?_, List.nodup_dedup _⟩
    · simp only [resolveChannels, selectorNames]
      rw [resolveList_all_names bot bot.channels
          (fun p hp => lookup_eq_some_of_mem hnd hp) hdisj]
      rfl
    · ext a
      simp [List.mem_dedup]
  · intro name i h1 h2
    simp only [resolveChannels, selectorNames]
    unfold resolveList
    rw [h1, h2]
    have hd : List.dedup [i] = [i] := by
      rw [show [i] = i :: ([] : List String) from rfl,
        List.dedup_cons_of_not_mem (List.not_mem_nil i)]
      rfl
    rw [show resolveList bot [] = .ok [] from rfl]
    simp [Except.map, hd]
  · intro l hl
    obtain ⟨e, he⟩ := resolveList_unknown_error bot l hl
    refine ⟨e, ?_⟩
    simp only [resolveChannels, selectorNames]
    rw [he]
    rfl
  · intro sel r hr
    simp only [resolveChannels] at hr
    cases hres : resolveList bot (selectorNames bot sel) with
    | error e => rw [hres] at hr; cases hr
    | ok r0 =>
      rw [hres] at hr
      simp only [Except.map] at hr
      injection hr with h
      rw [← h]
      exact List.nodup_dedup r0

/-- Channel registry used to witness channel resolution. -/
def resBot : Bot :=
  { botname := "Slackard", botnick := "slack"
    channels := [("general", "C1"), ("random", "C2")]
    chan_ids := [("C1", "general"), ("C2", "random")] }

/-- C6 witness: on a concrete two-channel registry, `None` resolves to the
full ID set, a known name to its ID, and a list containing an unknown
identifier to an unknown-channel error. -/
theorem C6_resolve_channels_witness :
    (∃ r, resolveChannels resBot .all = .ok r
        ∧ r.toFinset = (resBot.channels.map Prod.snd).toFinset ∧ r.Nodup)
    ∧ resolveChannels resBot (.one "general") = .ok ["C1"]
    ∧ ∃ e, resolveChannels resBot (.many ["general", "unknown-chan"]) = .error e := by
  have h := C6_resolve_channels resBot (by decide) (by decide)
  exact ⟨h.1, h.2.1 "general" "C1" rfl rfl,
    h.2.2.1 ["general", "unknown-chan"] ⟨"unknown-chan", by decide, rfl, rfl⟩⟩

theorem ciStrip_append (a b c : List Char) :
    ciStrip (a ++ b) (a ++ c) = ciStrip b c := by
  induction a with
  | nil => rfl
  | cons x t ih => simp [ciStrip, ih]

theorem parseCommand_self_ping (nick : String) :
    parseCommand nick (nick ++ ": ping extra args") = some ("ping", "extra args") := by
  unfold parseCommand parseCommandAux
  rw [String.data_append]
  rw [show (": ping extra args").data = [':'] ++ (" ping extra args").data from rfl]
  rw [ciStrip_append]
  rfl

/-- C4: when the message text is the bot nickname followed by a colon and
`ping extra args`, the command matcher captures command `ping` and args
`extra args`, and the command stage of dispatch (which runs after the
firehose and subscriber stages) invokes exactly the handlers registered
under the command string `ping`, each with args `extra args` and the
message; in general a successful parse invokes exactly the handlers
registered under the captured command, and a failed parse (text not of
the `<botnick>: <command>` form) invokes no command handler. -/
theorem C4_command_dispatch (bot : Bot) (m : Message) (txt : String)
    (htext : m.text = some txt) (hself : isSelfMessage bot m = false) :
    (txt = bot.botnick ++ ": ping extra args" →
       parseCommand bot.botnick txt = some ("ping", "extra args")
       ∧ cmdEvents bot txt m =
           (bot.commands.filter fun p => p.2 == "ping").map fun p =>
             Event.cmd p.1 "extra args" m)
    ∧ (∀ c args, parseCommand bot.botnick txt = some (c, args) →
         cmdEvents bot txt m =
           (bot.commands.filter fun p => p.2 == c).map fun p => Event.cmd p.1 args m)
    ∧ (parseCommand bot.botnick txt = none → cmdEvents bot txt m = [])
    ∧ dispatchMessage bot m =
        (bot.firehoses.map fun f => Event.fire f m)
          ++ ((bot.subscribers.filter fun p => p.2 txt).map fun p => Event.sub p.1 m)
          ++ cmdEvents bot txt m := by
  refine ⟨?_, ?_, ?_, dispatch_eq bot m txt htext hself⟩
  · rintro rfl
    refine ⟨parseCommand_self_ping bot.botnick, ?_⟩
    unfold cmdEvents
    rw [parseCommand_self_ping bot.botnick]
  · intro c args hp
    unfold cmdEvents
    rw [hp]
  · intro hp
    unfold cmdEvents
    rw [hp]

/-- Registry used to witness command dispatch: handlers under `ping` and
`pong`. -/
def cmdBot : Bot :=
  { botname := "Slackard", botnick := "slack", channels := [], chan_ids := []
    commands := [(1, "ping"), (2, "pong")] }

/-- C4 witness: the text `slack: ping extra args` captures
`("ping", "extra args")` and invokes exactly the `ping` handler. -/
theorem C4_command_dispatch_witness :
    parseCommand "slack" "slack: ping extra args" = some ("ping", "extra args")
    ∧ cmdEvents cmdBot "slack: ping extra args"
        { ts := 1, text := some "slack: ping extra args" } =
      [Event.cmd 1 "extra args" { ts := 1, text := some "slack: ping extra args" }] := by
  have h := (C4_command_dispatch cmdBot
      { ts := 1, text := some "slack: ping extra args" } "slack: ping extra args"
      rfl rfl).1 (by decide)
  exact ⟨h.1, by rw [h.2]; rfl⟩

/-- C3: assuming the service returns, per configured channel, exactly the
channel's messages with timestamp `≥ T` (its inclusive `oldest` bound) in
newest-first order, `fetchSince T` (1) never returns a message with
timestamp `T`, (2) returns every channel message with timestamp `> T`,
tagged with the originating channel ID and name, (3) tags every returned
message with the ID and name of some configured channel, (4) is the
concatenation over channels of the per-channel batches, and (5) presents
each per-channel batch in chronological (oldest-first) order after
reversing the service's ordering. -/
theorem C3_fetch_contract (bot : Bot) (hist : String → Nat → List Message)
    (full : String → List Message) (T : Nat)
    (hserv : ∀ ch ∈ bot.channels.map Prod.snd,
       hist ch T = (full ch).filter fun m => T ≤ m.ts)
    (hsorted : ∀ ch ∈ bot.channels.map Prod.snd,
       (hist ch T).Pairwise fun a b => b.ts ≤ a.ts) :
    (∀ m ∈ fetchMessagesSince bot hist T, m.ts ≠ T)
    ∧ (∀ p ∈ bot.channels, ∀ m ∈ full p.2, T < m.ts →
        { m with chan_id := some p.2, channel := bot.chan_ids.lookup p.2 }
          ∈ fetchMessagesSince bot hist T)
    ∧ (∀ m ∈ fetchMessagesSince bot hist T, ∃ p ∈ bot.channels,
        m.chan_id = some p.2 ∧ m.channel = bot.chan_ids.lookup p.2)
    ∧ fetchMessagesSince bot hist T =
        bot.channels.flatMap (fun p =>
          (((hist p.2 T).map fun m =>
              { m with chan_id := some p.2,
                       channel := bot.chan_ids.lookup p.2 }).reverse).filter
            fun m => m.ts ≠ T)
    ∧ (∀ p ∈ bot.channels,
        ((((hist p.2 T).map fun m =>
            { m with chan_id := some p.2,
                     channel := bot.chan_ids.lookup p.2 }).reverse).filter
          fun m => m.ts ≠ T).Pairwise fun a b => a.ts ≤ b.ts) := by
  have hstruct : fetchMessagesSince bot hist T =
      bot.channels.flatMap (fun p =>
        (((hist p.2 T).map fun m =>
            { m with chan_id := some p.2,
                     channel := bot.chan_ids.lookup p.2 }).reverse).filter
          fun m => m.ts ≠ T) := by
    unfold fetchMessagesSince
    rw [List.filter_flatMap, List.flatMap_map]
  refine ⟨?_, ?_, ?_, hstruct, ?_⟩
  · intro m hm
    unfold fetchMessagesSince at hm
    exact of_decide_eq_true (List.mem_filter.mp hm).2
  · intro p hp m hm hT
    rw [hstruct]
    apply List.mem_flatMap.mpr
    refine ⟨p, hp, ?_⟩
    apply List.mem_filter.mpr
    constructor
    · apply List.mem_reverse.mpr
      apply List.mem_map.mpr
      refine ⟨m, ?_, rfl⟩
      rw [hserv p.2 (List.mem_map.mpr ⟨p, hp, rfl⟩)]
      exact List.mem_filter.mpr ⟨hm, decide_eq_true (Nat.le_of_lt hT)⟩
    · exact decide_eq_true (Nat.ne_of_gt hT)
  · intro m hm
    rw [hstruct] at hm
    obtain ⟨p, hp, hmem⟩ := List.mem_flatMap.mp hm
    have h2 := (List.mem_filter.mp hmem).1
    rw [List.mem_reverse] at h2
    obtain ⟨m0, hm0, rfl⟩ := List.mem_map.mp h2
    exact ⟨p, hp, rfl, rfl⟩
  · intro p hp
    have h1 := hsorted p.2 (List.mem_map.mpr ⟨p, hp, rfl⟩)
    have h2 : ((hist p.2 T).map fun m =>
        { m with chan_id := some p.2,
                 channel := bot.chan_ids.lookup p.2 }).Pairwise
        (fun a b => b.ts ≤ a.ts) := by
      rw [List.pairwise_map]
      exact h1
    have h3 : (((hist p.2 T).map fun m =>
        { m with chan_id := some p.2,
                 channel := bot.chan_ids.lookup p.2 }).reverse).Pairwise
        (fun a b => a.ts ≤ b.ts) := by
      rw [List.pairwise_reverse]
      exact h2
    exact List.Pairwise.sublist (List.filter_sublist _) h3

/-- Channel registry used to witness the fetch contract. -/
def fetchBot : Bot :=
  { botname := "Slackard", botnick := "slack"
    channels := [("general", "C1"), ("random", "C2")]
    chan_ids := [("C1", "general"), ("C2", "random")] }

/-- Full per-channel histories for the fetch witness; channel `C1` also
holds a boundary message at the watermark timestamp 5, which the fetcher
must drop. -/
def fetchFull : String → List Message := fun ch =>
  if ch = "C1" then [{ ts := 10, text := some "hi" }, { ts := 5, text := some "old" }]
  else if ch = "C2" then [{ ts := 7, text := some "yo" }]
  else []

/-- Service history for the fetch witness: Slack's `oldest` bound is
inclusive and batches are newest-first. -/
def fetchHist : String → Nat → List Message := fun ch t =>
  (fetchFull ch).filter fun m => t ≤ m.ts

/-- C3 witness: on the concrete two-channel service, no fetched message
carries the watermark timestamp, and the newer message of channel `C1` is
returned tagged with its channel ID and name. -/
theorem C3_fetch_contract_witness :
    (∀ m ∈ fetchMessagesSince fetchBot fetchHist 5, m.ts ≠ 5)
    ∧ { ({ ts := 10, text := some "hi" } : Message) with
          chan_id := some "C1", channel := fetchBot.chan_ids.lookup "C1" }
        ∈ fetchMessagesSince fetchBot fetchHist 5 := by
  have h := C3_fetch_contract fetchBot fetchHist fetchFull 5 (by decide) (by decide)
  exact ⟨h.1, h.2.1 ("general", "C1") (by decide)
    { ts := 10, text := some "hi" } (by decide) (by decide)⟩

end Slackard
